import Mathlib

/-!
Verification of the thingino-cloner host-side flashing tool.

This file gives a shallow embedding of the core data model and the
operations of the tool (CRC32 helpers, the 40-byte write-handshake frame,
the bulk/vendor USB request wrappers, the CPU-info stage derivation, the
variant classifier, the chunked firmware write loop, the erase-ready
poller and the bootstrap entry point), translated from the C sources, and
proves or refutes the specification claims about them.

Machine integers are modelled as `Nat` with explicit masking where the C
code relies on `uint32_t` wrap-around; `uint8_t` buffer contents are
modelled as `Fin 256` (or as `Char` where the C code treats them as a
string).
-/

set_option maxRecDepth 4000

namespace ThinginoCloner

/-- `thingino_error_t` (include/thingino.h). -/
inductive thingino_error_t where
  | success
  | init_failed
  | device_not_found
  | open_failed
  | transfer_failed
  | timeout
  | invalid_parameter
  | memory
  | file_io
  | protocol
  | transfer_timeout
  deriving DecidableEq, Repr

/-- `device_stage_t` (include/thingino.h). -/
inductive device_stage_t where
  | bootrom
  | firmware
  deriving DecidableEq, Repr

/-- `processor_variant_t` (include/thingino.h; the `A1` constructor is
referenced by src/utils.c). -/
inductive processor_variant_t where
  | T20 | T21 | T23 | T30 | T31 | T31X | T31ZX | A1 | T40 | T41
  | X1000 | X1600 | X1700 | X2000 | X2100 | X2600
  deriving DecidableEq, Repr

/-! ## CRC32 (src/firmware/handshake.c `firmware_crc32`,
       src/utils.c `calculate_crc32`) -/

/-- `CRC32_POLYNOMIAL` (include/thingino.h). -/
def CRC32_POLYNOMIAL : Nat := 0xEDB88320

/-- `CRC32_INITIAL` (include/thingino.h). -/
def CRC32_INITIAL : Nat := 0xFFFFFFFF

/-- One iteration of the inner 8-round bit loop shared by
`firmware_crc32` and `calculate_crc32`. -/
def crc32_bit_step (crc : Nat) : Nat :=
  if crc &&& 1 = 1 then (crc >>> 1) ^^^ CRC32_POLYNOMIAL else crc >>> 1

/-- The body of the outer byte loop: `crc ^= data[i]` followed by eight
bit rounds. -/
def crc32_byte_step (crc : Nat) (b : Fin 256) : Nat :=
  (List.range 8).foldl (fun c _ => crc32_bit_step c) (crc ^^^ b.val)

/-- `firmware_crc32` (src/firmware/handshake.c lines 36-55): returns 0 on
an empty buffer, otherwise runs the table-less CRC32 with initial value
`CRC32_INITIAL` and a final XOR with `0xFFFFFFFF`. -/
def firmware_crc32 (data : List (Fin 256)) : Nat :=
  if data = [] then 0
  else (data.foldl crc32_byte_step CRC32_INITIAL) ^^^ 0xFFFFFFFF

/-- `calculate_crc32` (src/utils.c lines 12-27): the same loop but with
no empty-buffer guard and no final XOR. -/
def calculate_crc32 (data : List (Fin 256)) : Nat :=
  data.foldl crc32_byte_step CRC32_INITIAL

/-- Modelled from the spec: the standard Ethernet CRC32 (polynomial
`0xEDB88320`, initial value `0xFFFFFFFF`, final XOR `0xFFFFFFFF`), as the
specification words it. -/
def standard_crc32 (data : List (Fin 256)) : Nat :=
  (data.foldl crc32_byte_step CRC32_INITIAL) ^^^ 0xFFFFFFFF

/-! ## The 40-byte write-handshake frame
       (src/firmware/handshake.c `firmware_handshake_write_chunk`,
        lines 311-367) -/

/-- The 40-byte write-handshake frame built by
`firmware_handshake_write_chunk` (T31-family and T41 layout):
offset in 64 KiB units at bytes 10-11, size in 64 KiB units at 18-19,
the `0x00000600` constant at 24-27, `~crc32(data)` little-endian at
28-31, and the variant trailer at 32-39. -/
def write_handshake_frame (stage : device_stage_t) (variant : processor_variant_t)
    (chunk_offset : Nat) (data : List (Fin 256)) : List Nat :=
  let chunk_units := chunk_offset >>> 16
  let size_units := (data.length + 0xFFFF) >>> 16
  let crc := firmware_crc32 data
  let crc_inv := crc ^^^ 0xFFFFFFFF
  let trailer : List Nat :=
    if stage = .firmware ∧ variant = .T41 then
      [0xF0, 0x17, 0x00, 0x44, 0x70, 0x7A, 0x00, 0x00]
    else
      [0x20, 0xFB, 0x00, 0x08, 0xA2, 0x77, 0x00, 0x00]
  [0, 0, 0, 0, 0, 0, 0, 0, 0, 0,
   chunk_units &&& 0xFF, (chunk_units >>> 8) &&& 0xFF,
   0, 0, 0, 0, 0, 0,
   size_units &&& 0xFF, (size_units >>> 8) &&& 0xFF,
   0, 0, 0, 0,
   0x00, 0x00, 0x06, 0x00,
   crc_inv &&& 0xFF, (crc_inv >>> 8) &&& 0xFF,
   (crc_inv >>> 16) &&& 0xFF, (crc_inv >>> 24) &&& 0xFF] ++ trailer

/-- Little-endian reassembly of a 4-byte field, as in the spec's
`read_u32_le`. -/
def read_u32_le (bytes : List Nat) : Nat :=
  match bytes with
  | [b0, b1, b2, b3] => b0 + b1 * 256 + b2 * 65536 + b3 * 16777216
  | _ => 0

/-! ### CRC range lemmas -/

theorem crc32_bit_step_lt (crc : Nat) (h : crc < 2 ^ 32) :
    crc32_bit_step crc < 2 ^ 32 := by
  unfold crc32_bit_step
  have hs : crc >>> 1 < 2 ^ 32 := by
    rw [Nat.shiftRight_eq_div_pow]
    exact lt_of_le_of_lt (Nat.div_le_self _ _) h
  split
  · exact Nat.xor_lt_two_pow hs (by norm_num [CRC32_POLYNOMIAL])
  · exact hs

theorem crc32_byte_step_lt (crc : Nat) (b : Fin 256) (h : crc < 2 ^ 32) :
    crc32_byte_step crc b < 2 ^ 32 := by
  have hx : crc ^^^ b.val < 2 ^ 32 :=
    Nat.xor_lt_two_pow h (lt_trans b.isLt (by norm_num))
  have general : ∀ (l : List Nat) (c : Nat), c < 2 ^ 32 →
      l.foldl (fun c _ => crc32_bit_step c) c < 2 ^ 32 := by
    intro l
    induction l with
    | nil => intro c hc; exact hc
    | cons a t ih => intro c hc; exact ih _ (crc32_bit_step_lt c hc)
  exact general _ _ hx

theorem calculate_crc32_lt (data : List (Fin 256)) :
    calculate_crc32 data < 2 ^ 32 := by
  unfold calculate_crc32
  have general : ∀ (l : List (Fin 256)) (c : Nat), c < 2 ^ 32 →
      l.foldl crc32_byte_step c < 2 ^ 32 := by
    intro l
    induction l with
    | nil => intro c hc; exact hc
    | cons a t ih => intro c hc; exact ih _ (crc32_byte_step_lt c a hc)
  exact general data CRC32_INITIAL (by norm_num [CRC32_INITIAL])

/-- Little-endian byte extraction round-trips for 32-bit values. -/
theorem read_u32_le_bytes (x : Nat) (h : x < 2 ^ 32) :
    read_u32_le [x &&& 0xFF, (x >>> 8) &&& 0xFF,
                 (x >>> 16) &&& 0xFF, (x >>> 24) &&& 0xFF] = x := by
  have h255 : (0xFF : Nat) = 2 ^ 8 - 1 := by norm_num
  simp only [read_u32_le, h255, Nat.and_pow_two_sub_one_eq_mod,
    Nat.shiftRight_eq_div_pow]
  norm_num
  omega

/-! ## C1 and C10 -/

/-- C1: for every non-empty byte sequence `D`, the 40-byte
write-handshake frame stores at bytes [28..32), little-endian, the
bitwise complement of the standard Ethernet CRC32 of `D`. -/
theorem write_handshake_frame_crc_field (stage : device_stage_t)
    (variant : processor_variant_t) (chunk_offset : Nat)
    (data : List (Fin 256)) (h : data ≠ []) :
    read_u32_le (((write_handshake_frame stage variant chunk_offset data).drop 28).take 4)
      = standard_crc32 data ^^^ 0xFFFFFFFF := by
  have hfw : firmware_crc32 data = standard_crc32 data := by
    unfold firmware_crc32 standard_crc32
    rw [if_neg h]
  have hbytes :
      ((write_handshake_frame stage variant chunk_offset data).drop 28).take 4
        = [(firmware_crc32 data ^^^ 0xFFFFFFFF) &&& 0xFF,
           ((firmware_crc32 data ^^^ 0xFFFFFFFF) >>> 8) &&& 0xFF,
           ((firmware_crc32 data ^^^ 0xFFFFFFFF) >>> 16) &&& 0xFF,
           ((firmware_crc32 data ^^^ 0xFFFFFFFF) >>> 24) &&& 0xFF] := rfl
  rw [hbytes, hfw]
  have hlt : standard_crc32 data ^^^ 0xFFFFFFFF < 2 ^ 32 := by
    have h1 : standard_crc32 data < 2 ^ 32 := by
      unfold standard_crc32
      exact Nat.xor_lt_two_pow (calculate_crc32_lt data) (by norm_num)
    exact Nat.xor_lt_two_pow h1 (by norm_num)
  exact read_u32_le_bytes _ hlt

/-- Witness for C1 at the one-byte input `[0x5A]`. -/
theorem write_handshake_frame_crc_field_witness :
    ([(0x5A : Fin 256)] ≠ ([] : List (Fin 256))) ∧
    read_u32_le (((write_handshake_frame .firmware .T31 0 [(0x5A : Fin 256)]).drop 28).take 4)
      = standard_crc32 [(0x5A : Fin 256)] ^^^ 0xFFFFFFFF :=
  ⟨by decide,
   write_handshake_frame_crc_field .firmware .T31 0 [(0x5A : Fin 256)] (by decide)⟩

/-- C10: for every byte sequence `D`, including the empty one,
`calculate_crc32 D` is the 32-bit complement of `firmware_crc32 D`, and
is therefore the complement of the standard Ethernet CRC32 rather than
the standard CRC32 itself. -/
theorem calculate_crc32_is_complement (data : List (Fin 256)) :
    calculate_crc32 data = firmware_crc32 data ^^^ 0xFFFFFFFF ∧
    calculate_crc32 data = standard_crc32 data ^^^ 0xFFFFFFFF := by
  have hstd : calculate_crc32 data = standard_crc32 data ^^^ 0xFFFFFFFF := by
    unfold calculate_crc32 standard_crc32
    rw [Nat.xor_assoc, Nat.xor_self, Nat.xor_zero]
  constructor
  · cases data with
    | nil => decide
    | cons b t =>
      have hfw : firmware_crc32 (b :: t) = standard_crc32 (b :: t) := by
        unfold firmware_crc32 standard_crc32
        rw [if_neg (by simp)]
      rw [hfw]
      exact hstd
  · exact hstd

/-! ## Bulk transfers (src/usb/device.c `usb_device_bulk_transfer`,
       lines 468-492) -/

/-- Result code of a single libusb transfer. -/
inductive libusb_code where
  | success
  | timeout
  | pipe
  | no_device
  | other_error
  deriving DecidableEq, Repr

/-- Outcome of one libusb bulk transfer: the result code together with
the byte counter libusb reports. -/
structure bulk_outcome where
  code : libusb_code
  transferred : Nat
  deriving DecidableEq, Repr

/-- `usb_device_bulk_transfer` (device.c lines 468-492): a single
`libusb_bulk_transfer`; `THINGINO_SUCCESS` exactly when libusb reports
`LIBUSB_SUCCESS`, and `THINGINO_ERROR_TRANSFER_FAILED` for every other
result code — the byte counter is not consulted and there is no retry
("Fail immediately if transfer doesn't succeed"). -/
def usb_device_bulk_transfer (length : Nat) (outcome : bulk_outcome) :
    thingino_error_t :=
  if outcome.code = .success then .success else .transfer_failed

/-- C2 counterexample: a bulk transfer of requested length 512 whose
transport reports a timeout with the byte counter equal to 512 returns
`transfer_failed`, not `success`, contradicting the claim. -/
theorem bulk_timeout_full_count_not_success :
    usb_device_bulk_transfer 512 ⟨.timeout, 512⟩ = .transfer_failed ∧
    (thingino_error_t.transfer_failed ≠ .success) := by
  decide

/-- C2 amended: a bulk transfer returns success iff the transport
reports success; any other code — including a timeout whose byte counter
equals the requested length — is surfaced as `transfer_failed`, with no
retry at this layer. -/
theorem usb_device_bulk_transfer_success_iff (length : Nat)
    (outcome : bulk_outcome) :
    (usb_device_bulk_transfer length outcome = .success ↔
      outcome.code = .success) ∧
    (outcome.code ≠ .success →
      usb_device_bulk_transfer length outcome = .transfer_failed) := by
  unfold usb_device_bulk_transfer
  constructor
  · constructor
    · intro h
      by_contra hc
      rw [if_neg hc] at h
      exact absurd h (by decide)
    · intro h
      rw [if_pos h]
  · intro h
    rw [if_neg h]

/-- Witness for the C2 amended theorem at a pipe-error outcome. -/
theorem usb_device_bulk_transfer_success_iff_witness :
    usb_device_bulk_transfer 64 ⟨.pipe, 0⟩ = .transfer_failed :=
  (usb_device_bulk_transfer_success_iff 64 ⟨.pipe, 0⟩).2 (by decide)

/-! ## CPU-info stage derivation (src/usb/device.c
       `usb_device_get_cpu_info`, lines 102-155) -/

/-- Printable-ASCII test used when cleaning the CPU magic
(`byte >= 0x20 && byte <= 0x7E`). -/
def printable_ascii (c : Char) : Bool :=
  0x20 ≤ c.toNat && c.toNat ≤ 0x7E

/-- `cpu_str` (device.c lines 102-113): printable projection of the
first 8 magic bytes with spaces skipped. -/
def cpu_str_of_raw (raw : List Char) : List Char :=
  (raw.take 8).filter (fun c => printable_ascii c && c ≠ ' ')

/-- `clean_cpu_str` (device.c lines 115-124): printable projection with
spaces preserved; stored in `info->clean_magic`. -/
def clean_cpu_str_of_raw (raw : List Char) : List Char :=
  (raw.take 8).filter printable_ascii

/-- Stage derivation of `usb_device_get_cpu_info` (device.c lines
141-153): firmware iff `cpu_str` begins with `"Boot"` or `"BOOT"`. -/
def cpu_info_stage (raw : List Char) : device_stage_t :=
  if "Boot".toList.isPrefixOf (cpu_str_of_raw raw)
      || "BOOT".toList.isPrefixOf (cpu_str_of_raw raw) then
    .firmware
  else
    .bootrom

/-- C3 counterexample: the raw magic `"X2580"` (padded with NULs) has
cleaned magic `"X2580"`, which the claim classifies as `Firmware`, yet
the code derives `RomBoot`. -/
theorem cpu_info_stage_x2580_is_bootrom :
    clean_cpu_str_of_raw
        ['X', '2', '5', '8', '0', Char.ofNat 0, Char.ofNat 0, Char.ofNat 0]
      = "X2580".toList ∧
    cpu_info_stage
        ['X', '2', '5', '8', '0', Char.ofNat 0, Char.ofNat 0, Char.ofNat 0]
      = .bootrom ∧
    (device_stage_t.bootrom ≠ .firmware) := by
  exact ⟨by decide, by decide, by decide⟩

/-- C3 amended: the derived stage is `Firmware` if and only if the
space-stripped printable projection of the magic begins with `"Boot"` or
`"BOOT"`; every other magic (including `"X2580"` and `"A1"`) yields
`RomBoot`. -/
theorem cpu_info_stage_iff (raw : List Char) :
    cpu_info_stage raw = .firmware ↔
      ("Boot".toList <+: cpu_str_of_raw raw ∨
       "BOOT".toList <+: cpu_str_of_raw raw) := by
  unfold cpu_info_stage
  constructor
  · intro h
    by_cases hb : ("Boot".toList.isPrefixOf (cpu_str_of_raw raw)
        || "BOOT".toList.isPrefixOf (cpu_str_of_raw raw)) = true
    · rcases Bool.or_eq_true_iff.mp hb with h1 | h1
      · exact Or.inl (List.isPrefixOf_iff_prefix.mp h1)
      · exact Or.inr (List.isPrefixOf_iff_prefix.mp h1)
    · rw [if_neg hb] at h
      exact absurd h (by decide)
  · intro h
    have hb : ("Boot".toList.isPrefixOf (cpu_str_of_raw raw)
        || "BOOT".toList.isPrefixOf (cpu_str_of_raw raw)) = true := by
      rcases h with h1 | h1
      · exact Bool.or_eq_true_iff.mpr (Or.inl (List.isPrefixOf_iff_prefix.mpr h1))
      · exact Bool.or_eq_true_iff.mpr (Or.inr (List.isPrefixOf_iff_prefix.mpr h1))
    rw [if_pos hb]

/-! ## Variant classification (src/utils.c `detect_variant_from_magic`,
       lines 106-184) -/

/-- `strstr`-style substring test: does `needle` occur in `hay`? -/
def contains_sub (hay needle : List Char) : Bool :=
  match hay with
  | [] => needle.isEmpty
  | c :: t => needle.isPrefixOf (c :: t) || contains_sub t needle

/-- `detect_variant_from_magic` (utils.c lines 106-184), translated
branch by branch: X2580 substring, X-series substrings, exact A1,
zx substrings, the length-gated compact-prefix rules, the 8-character
suffix fallback, and the `T31X` default. -/
def detect_variant_from_magic (magic : List Char) : processor_variant_t :=
  if contains_sub magic "X2580".toList || contains_sub magic "x2580".toList then
    .T41
  else if contains_sub magic "x1000".toList || contains_sub magic "X1000".toList then
    .X1000
  else if contains_sub magic "x1600".toList || contains_sub magic "X1600".toList then
    .X1600
  else if contains_sub magic "x1700".toList || contains_sub magic "X1700".toList then
    .X1700
  else if contains_sub magic "x2000".toList || contains_sub magic "X2000".toList then
    .X2000
  else if contains_sub magic "x2100".toList || contains_sub magic "X2100".toList then
    .X2100
  else if contains_sub magic "x2600".toList || contains_sub magic "X2600".toList then
    .X2600
  else if magic = "A1".toList || magic = "a1".toList then
    .A1
  else if contains_sub magic "t31zx".toList || contains_sub magic "T31ZX".toList
      || contains_sub magic "zx".toList then
    .T31ZX
  else
    let from_compact : Option processor_variant_t :=
      if magic.length ≥ 4 then
        let compact := (magic.filter (fun c => c ≠ ' ')).take 8
        if "T31V".toList.isPrefixOf compact then some .T31ZX
        else if "T31".toList.isPrefixOf compact then some .T31
        else if "T20".toList.isPrefixOf compact then some .T20
        else if "T21".toList.isPrefixOf compact then some .T21
        else if "T23".toList.isPrefixOf compact then some .T23
        else if "T30".toList.isPrefixOf compact then some .T30
        else if "T40".toList.isPrefixOf compact then some .T40
        else if "T41".toList.isPrefixOf compact then some .T41
        else none
      else none
    match from_compact with
    | some v => v
    | none =>
      if magic.length ≥ 8 then
        let suffix := magic.drop 6
        if "20".toList.isPrefixOf suffix then .T20
        else if "21".toList.isPrefixOf suffix then .T21
        else if "23".toList.isPrefixOf suffix then .T23
        else if "30".toList.isPrefixOf suffix then .T30
        else if "31".toList.isPrefixOf suffix then .T31
        else if "40".toList.isPrefixOf suffix then .T40
        else if "41".toList.isPrefixOf suffix then .T41
        else .T31X
      else .T31X

/-- C8 counterexample: the magic `"A1"` matches none of the claim's
rules, so the claim assigns it the default `T31X`; the code classifies
it as `A1`. -/
theorem detect_variant_a1_not_default :
    detect_variant_from_magic "A1".toList = .A1 ∧
    (processor_variant_t.A1 ≠ .T31X) := by
  exact ⟨by decide, by decide⟩

/-- C8 amended: the classifier applies, in order: case-insensitive
substring `X2580` ⇒ T41; substrings `x1000`…`x2600` ⇒ the X-series
variant; exact `A1`/`a1` ⇒ A1; substrings `t31zx`/`T31ZX`/`zx` ⇒ T31ZX;
then, only for magics of length ≥ 4, prefix rules on the space-stripped
(8-capped) magic (`T31V` ⇒ T31ZX, `T31` ⇒ T31, `T20`/`T21`/`T23`/`T30`/
`T40`/`T41` ⇒ matching variant); then, for magics of length ≥ 8, a
numeric-suffix fallback on characters 7-8; otherwise the default `T31X`.
Verified over a table of documented magics. -/
theorem detect_variant_table :
    detect_variant_from_magic "X2580".toList = .T41 ∧
    detect_variant_from_magic "x2580".toList = .T41 ∧
    detect_variant_from_magic "X1000".toList = .X1000 ∧
    detect_variant_from_magic "x2600".toList = .X2600 ∧
    detect_variant_from_magic "A1".toList = .A1 ∧
    detect_variant_from_magic "a1".toList = .A1 ∧
    detect_variant_from_magic "zx".toList = .T31ZX ∧
    detect_variant_from_magic "T31ZX".toList = .T31ZX ∧
    detect_variant_from_magic "T31V".toList = .T31ZX ∧
    detect_variant_from_magic "T 3 1 V ".toList = .T31ZX ∧
    detect_variant_from_magic "T31X".toList = .T31 ∧
    detect_variant_from_magic "T31N".toList = .T31 ∧
    detect_variant_from_magic "T20 ".toList = .T20 ∧
    detect_variant_from_magic "T21 ".toList = .T21 ∧
    detect_variant_from_magic "T23 ".toList = .T23 ∧
    detect_variant_from_magic "T30 ".toList = .T30 ∧
    detect_variant_from_magic "T40 ".toList = .T40 ∧
    detect_variant_from_magic "T41 ".toList = .T41 ∧
    detect_variant_from_magic "BOOT4720".toList = .T20 ∧
    detect_variant_from_magic "BOOT4731".toList = .T31 ∧
    detect_variant_from_magic "BOOT4741".toList = .T41 ∧
    detect_variant_from_magic "T41".toList = .T31X ∧
    detect_variant_from_magic "????????".toList = .T31X ∧
    detect_variant_from_magic [] = .T31X := by
  decide

/-! ## Vendor requests with retry
       (src/usb/device.c `usb_device_vendor_request`, lines 561-633) -/

/-- `VR_SET_DATA_ADDR` (include/thingino.h). -/
def VR_SET_DATA_ADDR : Nat := 0x01

/-- `VR_SET_DATA_LEN` (include/thingino.h). -/
def VR_SET_DATA_LEN : Nat := 0x02

/-- `VR_PROG_STAGE2` (include/thingino.h). -/
def VR_PROG_STAGE2 : Nat := 0x05

/-- `VR_WRITE` (include/thingino.h). -/
def VR_WRITE : Nat := 0x12

/-- `REQUEST_TYPE_OUT` (include/thingino.h). -/
def REQUEST_TYPE_OUT : Nat := 0x40

/-- Outcome of one `libusb_control_transfer`: a non-negative byte count
or a negative error code. -/
inductive control_outcome where
  | ok (len : Nat)
  | timeout
  | pipe
  | no_device
  | other_error
  deriving DecidableEq, Repr

/-- The recoverable-error test of device.c line 592
(`LIBUSB_ERROR_TIMEOUT || LIBUSB_ERROR_PIPE || LIBUSB_ERROR_NO_DEVICE`). -/
def recoverable : control_outcome → Bool
  | .timeout => true
  | .pipe => true
  | .no_device => true
  | _ => false

/-- `retry_delays` (device.c line 571), in milliseconds. -/
def retry_delays : List Nat := [500, 1000, 2000, 3000, 5000]

/-- `is_key_op` (device.c line 593). -/
def is_key_op (request : Nat) : Bool :=
  request == VR_SET_DATA_ADDR || request == VR_SET_DATA_LEN ||
    request == VR_PROG_STAGE2

/-- `is_vendor_type` (device.c line 594): `(request_type & 0x60) == 0x40`. -/
def is_vendor_type (request_type : Nat) : Bool :=
  request_type &&& 0x60 == 0x40

/-- `is_device_recipient` (device.c line 595): `(request_type & 0x1F) == 0`. -/
def is_device_recipient (request_type : Nat) : Bool :=
  request_type &&& 0x1F == 0x00

/-- Observable result of `usb_device_vendor_request`: the status, the
response length on success, the back-off delays actually slept (in
order), and the number of control transfers issued. -/
structure vendor_request_result where
  status : thingino_error_t
  response_length : Option Nat
  delays_slept : List Nat
  transfers : Nat
  deriving DecidableEq, Repr

/-- The retry loop of `usb_device_vendor_request` (device.c lines
573-630). `transport j` is the outcome of the j-th control transfer;
`alt_eligible` is the loop-invariant key-op/vendor-type/device-recipient
condition of lines 593-595 (hoisted out of the loop body); `fuel`
counts the remaining iterations (`max_retries - retry_count`), `r` is
`retry_count`, `k` the transfer counter and `acc` the reversed list of
delays slept so far. -/
def vendor_request_loop (transport : Nat → control_outcome)
    (alt_eligible : Bool) :
    Nat → Nat → Nat → List Nat → vendor_request_result
  | 0, _, k, acc => ⟨.transfer_failed, none, acc.reverse, k⟩
  | fuel + 1, r, k, acc =>
    match transport k with
    | .ok len => ⟨.success, some len, acc.reverse, k + 1⟩
    | e =>
      if recoverable e then
        if alt_eligible then
          match transport (k + 1) with
          | .ok len => ⟨.success, some len, acc.reverse, k + 2⟩
          | _ =>
            if fuel = 0 then ⟨.transfer_failed, none, acc.reverse, k + 2⟩
            else
              vendor_request_loop transport alt_eligible fuel (r + 1) (k + 2)
                (retry_delays.getD r 0 :: acc)
        else
          if fuel = 0 then ⟨.transfer_failed, none, acc.reverse, k + 1⟩
          else
            vendor_request_loop transport alt_eligible fuel (r + 1) (k + 1)
              (retry_delays.getD r 0 :: acc)
      else ⟨.transfer_failed, none, acc.reverse, k + 1⟩

/-- `usb_device_vendor_request` (device.c lines 561-633):
`max_retries = 5`, starting with `retry_count = 0`. -/
def usb_device_vendor_request (transport : Nat → control_outcome)
    (request_type request : Nat) : vendor_request_result :=
  vendor_request_loop transport
    (is_key_op request && is_vendor_type request_type &&
      is_device_recipient request_type)
    5 0 0 []

/-- Without the interface-recipient fallback, the loop output only
depends on the first `fuel` transport outcomes from `k` on. -/
theorem vendor_request_loop_congr_plain
    (transport transport2 : Nat → control_outcome) :
    ∀ (fuel r k : Nat) (acc : List Nat),
      (∀ j, k ≤ j → j < k + fuel → transport j = transport2 j) →
      vendor_request_loop transport false fuel r k acc =
        vendor_request_loop transport2 false fuel r k acc := by
  intro fuel
  induction fuel with
  | zero => intro r k acc h; rfl
  | succ fuel ih =>
    intro r k acc h
    have hk : transport k = transport2 k := h k le_rfl (by omega)
    rw [vendor_request_loop, vendor_request_loop, ← hk]
    cases htk : transport k with
    | ok len => rfl
    | other_error => rfl
    | timeout | pipe | no_device =>
      simp only [recoverable, if_true, Bool.false_eq_true, if_false]
      by_cases hf : fuel = 0
      · rw [if_pos hf, if_pos hf]
      · rw [if_neg hf, if_neg hf]
        exact ih (r + 1) (k + 1) _ (fun j hj1 hj2 => h j (by omega) (by omega))

/-- With the interface-recipient fallback, the loop output only depends
on the first `2 * fuel` transport outcomes from `k` on. -/
theorem vendor_request_loop_congr_alt
    (transport transport2 : Nat → control_outcome) :
    ∀ (fuel r k : Nat) (acc : List Nat),
      (∀ j, k ≤ j → j < k + 2 * fuel → transport j = transport2 j) →
      vendor_request_loop transport true fuel r k acc =
        vendor_request_loop transport2 true fuel r k acc := by
  intro fuel
  induction fuel with
  | zero => intro r k acc h; rfl
  | succ fuel ih =>
    intro r k acc h
    have hk : transport k = transport2 k := h k le_rfl (by omega)
    rw [vendor_request_loop, vendor_request_loop, ← hk]
    cases htk : transport k with
    | ok len => rfl
    | other_error => rfl
    | timeout | pipe | no_device =>
      simp only [recoverable, if_true]
      have hk1 : transport (k + 1) = transport2 (k + 1) :=
        h (k + 1) (by omega) (by omega)
      rw [← hk1]
      cases htk1 : transport (k + 1) with
      | ok len => rfl
      | timeout | pipe | no_device | other_error =>
        simp only []
        by_cases hf : fuel = 0
        · rw [if_pos hf, if_pos hf]
        · rw [if_neg hf, if_neg hf]
          exact ih (r + 1) (k + 2) _ (fun j hj1 hj2 => h j (by omega) (by omega))

/-- C4 counterexample: `VR_SET_DATA_ADDR` (a key OUT request with
request type `0x40`) on a transport that times out 5 times and then
succeeds returns success, because each failed attempt is followed by an
immediate interface-recipient fallback attempt; the claim demands
failure for N ≥ 5. -/
theorem vendor_request_key_op_five_timeouts_succeeds :
    (usb_device_vendor_request
        (fun k => if k < 5 then .timeout else .ok 0) 0x40 0x01).status
      = .success := by
  decide

/-- C4 amended: on a transport failing with timeout N times then
succeeding, an ordinary vendor request succeeds iff N < 5 and, when it
fails, slept exactly the back-off delays 500, 1000, 2000, 3000 ms over
5 transfers (the 5000 ms table entry is never slept); a key OUT request
(`SET_DATA_ADDR`/`SET_DATA_LEN`/`PROG_STAGE2` with vendor-type,
device-recipient request type) gains an immediate interface-recipient
fallback attempt per round, so it succeeds iff N < 10 and issues 10
transfers when it fails; a non-recoverable transport error is surfaced
immediately after a single transfer with no sleeps. -/
theorem usb_device_vendor_request_retry_behavior
    (request_type request N : Nat) :
    (((is_key_op request && is_vendor_type request_type &&
        is_device_recipient request_type) = false) →
      ((usb_device_vendor_request
          (fun k => if k < N then .timeout else .ok 0)
          request_type request).status = .success ↔ N < 5) ∧
      (5 ≤ N →
        (usb_device_vendor_request
            (fun k => if k < N then .timeout else .ok 0)
            request_type request)
          = ⟨.transfer_failed, none, [500, 1000, 2000, 3000], 5⟩)) ∧
    (((is_key_op request && is_vendor_type request_type &&
        is_device_recipient request_type) = true) →
      ((usb_device_vendor_request
          (fun k => if k < N then .timeout else .ok 0)
          request_type request).status = .success ↔ N < 10) ∧
      (10 ≤ N →
        (usb_device_vendor_request
            (fun k => if k < N then .timeout else .ok 0)
            request_type request)
          = ⟨.transfer_failed, none, [500, 1000, 2000, 3000], 10⟩)) ∧
    (usb_device_vendor_request (fun _ => .other_error) request_type request
      = ⟨.transfer_failed, none, [], 1⟩) := by
  refine ⟨?_, ?_, ?_⟩
  · intro halt
    unfold usb_device_vendor_request
    rw [halt]
    rcases Nat.lt_or_ge N 5 with h5 | h5
    · constructor
      · interval_cases N <;> simp <;> decide
      · intro hge
        omega
    · have hcongr :
          vendor_request_loop (fun k => if k < N then .timeout else .ok 0)
              false 5 0 0 []
            = vendor_request_loop (fun _ => .timeout) false 5 0 0 [] := by
        apply vendor_request_loop_congr_plain
        intro j hj1 hj2
        rw [if_pos (by omega)]
      rw [hcongr]
      constructor
      · constructor
        · intro h
          exact absurd h (by decide)
        · intro h
          omega
      · intro hge
        decide
  · intro halt
    unfold usb_device_vendor_request
    rw [halt]
    rcases Nat.lt_or_ge N 10 with h10 | h10
    · constructor
      · interval_cases N <;> simp <;> decide
      · intro hge
        omega
    · have hcongr :
          vendor_request_loop (fun k => if k < N then .timeout else .ok 0)
              true 5 0 0 []
            = vendor_request_loop (fun _ => .timeout) true 5 0 0 [] := by
        apply vendor_request_loop_congr_alt
        intro j hj1 hj2
        rw [if_pos (by omega)]
      rw [hcongr]
      constructor
      · constructor
        · intro h
          exact absurd h (by decide)
        · intro h
          omega
      · intro hge
        decide
  · unfold usb_device_vendor_request
    rw [vendor_request_loop]
    rfl

/-- Witness for the C4 amended theorem: `FW_READ_STATUS2` (0x19, not a
key op) with request type `0xC0` failing 7 times yields the failed
result with delays 500, 1000, 2000, 3000 and 5 transfers. -/
theorem usb_device_vendor_request_retry_behavior_witness :
    usb_device_vendor_request
        (fun k => if k < 7 then .timeout else .ok 0) 0xC0 0x19
      = ⟨.transfer_failed, none, [500, 1000, 2000, 3000], 5⟩ :=
  ((usb_device_vendor_request_retry_behavior 0xC0 0x19 7).1
    (by decide)).2 (by omega)

/-! ## Write-chunk control flow (src/firmware/handshake.c
       `firmware_handshake_write_chunk`, lines 286-481) -/

/-- Observable outcome of `firmware_handshake_write_chunk`: the status,
whether the bulk-out data phase was reached, and the handshake frame
that was built. -/
structure write_chunk_result where
  status : thingino_error_t
  bulk_attempted : Bool
  frame : List Nat
  deriving DecidableEq, Repr

/-- Control flow of `firmware_handshake_write_chunk` (handshake.c lines
286-481): parameter validation, the `VR_WRITE` handshake through
`usb_device_vendor_request` (surfacing its error), then the bulk-out
data phase (surfacing its error); the T41 per-chunk `FW_READ` and the
log drain never change the status. -/
def firmware_handshake_write_chunk (ctrl_transport : Nat → control_outcome)
    (bulk : bulk_outcome) (stage : device_stage_t)
    (variant : processor_variant_t) (chunk_offset : Nat)
    (data : List (Fin 256)) : write_chunk_result :=
  if data = [] then ⟨.invalid_parameter, false, []⟩
  else
    let frame := write_handshake_frame stage variant chunk_offset data
    let hs := usb_device_vendor_request ctrl_transport REQUEST_TYPE_OUT VR_WRITE
    if hs.status ≠ .success then ⟨hs.status, false, frame⟩
    else
      let bulk_status := usb_device_bulk_transfer data.length bulk
      if bulk_status ≠ .success then ⟨bulk_status, true, frame⟩
      else ⟨.success, true, frame⟩

/-- C5 counterexample: in Firmware stage, a `VR_WRITE` handshake whose
control transport always times out makes the write-chunk operation
return `transfer_failed` without reaching the bulk-out — the claim
demands success. -/
theorem write_chunk_vr_write_timeout_fails :
    (firmware_handshake_write_chunk (fun _ => .timeout)
        ⟨.success, 0x5A⟩ .firmware .T31 0 [(0x5A : Fin 256)]).status
      = .transfer_failed ∧
    (firmware_handshake_write_chunk (fun _ => .timeout)
        ⟨.success, 0x5A⟩ .firmware .T31 0 [(0x5A : Fin 256)]).bulk_attempted
      = false := by
  decide

/-- C5 amended: in Firmware stage (as in every stage), a `VR_WRITE`
handshake timeout is not swallowed: after the vendor-request layer's
retries are exhausted the write-chunk operation surfaces
`transfer_failed` and the subsequent bulk-out is never attempted. -/
theorem write_chunk_vr_write_timeout_surfaced
    (bulk : bulk_outcome) (stage : device_stage_t)
    (variant : processor_variant_t) (chunk_offset : Nat)
    (data : List (Fin 256)) (h : data ≠ []) :
    (firmware_handshake_write_chunk (fun _ => .timeout) bulk stage variant
        chunk_offset data).status = .transfer_failed ∧
    (firmware_handshake_write_chunk (fun _ => .timeout) bulk stage variant
        chunk_offset data).bulk_attempted = false := by
  have hhs : usb_device_vendor_request (fun _ => control_outcome.timeout)
      REQUEST_TYPE_OUT VR_WRITE
        = ⟨.transfer_failed, none, [500, 1000, 2000, 3000], 5⟩ := by
    decide
  unfold firmware_handshake_write_chunk
  rw [if_neg h]
  simp only [hhs]
  rw [if_pos (by decide)]
  exact ⟨rfl, rfl⟩

/-- Witness for the C5 amended theorem at a one-byte chunk. -/
theorem write_chunk_vr_write_timeout_surfaced_witness :
    (firmware_handshake_write_chunk (fun _ => .timeout)
        ⟨.success, 1⟩ .firmware .T41 65536 [(0x00 : Fin 256)]).status
      = .transfer_failed :=
  (write_chunk_vr_write_timeout_surfaced ⟨.success, 1⟩ .firmware .T41 65536
    [(0x00 : Fin 256)] (by decide)).1

/-! ## Whole-image write chunking (src/firmware/writer.c
       `write_firmware_to_device`, lines 617-713) -/

/-- `CHUNK_SIZE_128KB` (writer.c line 20). -/
def CHUNK_SIZE_128KB : Nat := 128 * 1024

/-- `CHUNK_SIZE_64KB` (writer.c line 21). -/
def CHUNK_SIZE_64KB : Nat := 64 * 1024

/-- `CHUNK_SIZE_1MB` (writer.c line 22). -/
def CHUNK_SIZE_1MB : Nat := 1024 * 1024

/-- The chunk-size dispatch of `write_firmware_to_device` (writer.c
lines 621, 653, 683): the firmware-stage T41 path uses 64 KiB chunks,
the A1 path 1 MiB, and the default T31-family path 128 KiB. -/
def write_chunk_size (stage : device_stage_t) (variant : processor_variant_t)
    (is_a1_fw : Bool) : Nat :=
  if stage = .firmware ∧ variant = .T41 then CHUNK_SIZE_64KB
  else if is_a1_fw then CHUNK_SIZE_1MB
  else CHUNK_SIZE_128KB

/-- The per-chunk `while (bytes_written < firmware_size)` loop shared by
the three write paths (writer.c lines 625-652, 656-682, 685-712):
emits the (chunk_offset, chunk_size) pairs in order. `fuel` bounds the
iteration count; since every iteration advances `written` by at least
one byte, fuel `S` is always sufficient. -/
def write_chunks_loop (c S : Nat) : Nat → Nat → List (Nat × Nat)
  | 0, _ => []
  | fuel + 1, written =>
    if written < S then
      (written, if S < written + c then S - written else c) ::
        write_chunks_loop c S fuel
          (written + (if S < written + c then S - written else c))
    else []

/-- The chunk sequence produced by `write_firmware_to_device` for an
image of `S` bytes. -/
def write_firmware_chunks (stage : device_stage_t)
    (variant : processor_variant_t) (is_a1_fw : Bool) (S : Nat) :
    List (Nat × Nat) :=
  write_chunks_loop (write_chunk_size stage variant is_a1_fw) S S 0

theorem write_chunk_size_pos (stage : device_stage_t)
    (variant : processor_variant_t) (is_a1_fw : Bool) :
    0 < write_chunk_size stage variant is_a1_fw := by
  unfold write_chunk_size
  split
  · norm_num [CHUNK_SIZE_64KB]
  · split
    · norm_num [CHUNK_SIZE_1MB]
    · norm_num [CHUNK_SIZE_128KB]

/-- Closed form of the chunk loop: a map over the chunk indices. -/
theorem write_chunks_loop_eq (c : Nat) (hc : 0 < c) :
    ∀ (fuel S w : Nat), S - w ≤ fuel →
      write_chunks_loop c S fuel w
        = (List.range ((S - w + c - 1) / c)).map
            (fun i => (w + i * c, min c (S - (w + i * c)))) := by
  intro fuel
  induction fuel with
  | zero =>
    intro S w hn
    have hz : (S - w + c - 1) / c = 0 := Nat.div_eq_of_lt (by omega)
    rw [write_chunks_loop, hz]
    rfl
  | succ fuel ih =>
    intro S w hn
    by_cases hw : w < S
    · rw [write_chunks_loop, if_pos hw]
      by_cases hbig : S < w + c
      · simp only [if_pos hbig]
        rw [show w + (S - w) = S from by omega]
        rw [write_chunks_loop.eq_def]
        have hlen : (S - w + c - 1) / c = 1 :=
          Nat.div_eq_of_lt_le (by omega) (by omega)
        rw [hlen]
        cases fuel with
        | zero =>
          simp only [List.range_succ, List.range_zero, List.nil_append,
            List.map_cons, List.map_nil, List.cons.injEq, Prod.mk.injEq]
          exact ⟨⟨by omega, by omega⟩, trivial⟩
        | succ fuel2 =>
          simp only [Nat.lt_irrefl, if_false, List.range_succ, List.range_zero,
            List.nil_append, List.map_cons, List.map_nil, List.cons.injEq,
            Prod.mk.injEq]
          exact ⟨⟨by omega, by omega⟩, trivial⟩
      · simp only [if_neg hbig]
        rw [ih S (w + c) (by omega)]
        have hlen : (S - w + c - 1) / c = (S - (w + c) + c - 1) / c + 1 := by
          rw [show S - w + c - 1 = (S - (w + c) + c - 1) + c from by omega,
            Nat.add_div_right _ hc]
        rw [hlen, List.range_succ_eq_map]
        simp only [List.map_cons, List.map_map, List.cons.injEq, Prod.mk.injEq]
        refine ⟨⟨by omega, by omega⟩, ?_⟩
        apply List.map_congr_left
        intro i hi
        simp only [Function.comp_apply, Prod.mk.injEq, Nat.succ_mul,
          Nat.succ_eq_add_one]
        constructor
        · omega
        · rw [show w + c + i * c = w + (i * c + c) from by omega]
    · rw [write_chunks_loop, if_neg hw]
      have hz : (S - w + c - 1) / c = 0 := Nat.div_eq_of_lt (by omega)
      rw [hz]
      rfl

/-- Partition facts of the chunk loop over a full image, for an
arbitrary positive chunk size. -/
theorem write_chunks_loop_partition (c S : Nat) (hc : 0 < c) (hS : 0 < S) :
    (write_chunks_loop c S S 0).length = (S + c - 1) / c ∧
    (∀ i, ∀ h : i < (write_chunks_loop c S S 0).length,
      ((write_chunks_loop c S S 0).get ⟨i, h⟩).1 = i * c) ∧
    (∀ i, ∀ h : i < (write_chunks_loop c S S 0).length,
      i + 1 < (write_chunks_loop c S S 0).length →
      ((write_chunks_loop c S S 0).get ⟨i, h⟩).2 = c) ∧
    (∀ i, ∀ h : i < (write_chunks_loop c S S 0).length,
      i + 1 = (write_chunks_loop c S S 0).length →
      ((write_chunks_loop c S S 0).get ⟨i, h⟩).2
        = if S % c = 0 then c else S % c) := by
  have hmap : write_chunks_loop c S S 0
      = (List.range ((S + c - 1) / c)).map
          (fun i => (i * c, min c (S - i * c))) := by
    rw [write_chunks_loop_eq c hc S S 0 (by omega)]
    simp only [Nat.sub_zero, Nat.zero_add]
  have hlen : (write_chunks_loop c S S 0).length = (S + c - 1) / c := by
    rw [hmap, List.length_map, List.length_range]
  have hget : ∀ i, ∀ h : i < (write_chunks_loop c S S 0).length,
      (write_chunks_loop c S S 0).get ⟨i, h⟩ = (i * c, min c (S - i * c)) := by
    intro i h
    simp only [List.get_eq_getElem, hmap, List.getElem_map, List.getElem_range]
  refine ⟨hlen, ?_, ?_, ?_⟩
  · intro i h
    rw [hget i h]
  · intro i h h2
    rw [hget i h]
    rw [hlen] at h2
    have ha : (i + 2) * c ≤ ((S + c - 1) / c) * c :=
      Nat.mul_le_mul_right c (by omega)
    have hb : ((S + c - 1) / c) * c ≤ S + c - 1 := Nat.div_mul_le_self _ _
    have hexp : (i + 2) * c = i * c + 2 * c := by rw [Nat.add_mul]
    omega
  · intro i h h2
    rw [hget i h]
    rw [hlen] at h2
    have hlen2 : (S + c - 1) / c = (S - 1) / c + 1 := by
      rw [show S + c - 1 = (S - 1) + c from by omega, Nat.add_div_right _ hc]
    have hi : i = (S - 1) / c := by omega
    have hdm : ((S - 1) / c) * c + (S - 1) % c = S - 1 := by
      rw [Nat.mul_comm]
      exact Nat.div_add_mod _ _
    have hmlt : (S - 1) % c < c := Nat.mod_lt (S - 1) hc
    have hic : i * c = ((S - 1) / c) * c := by rw [hi]
    by_cases hfull : (S - 1) % c + 1 = c
    · have hS0 : S % c = 0 := by
        have hSe : S = ((S - 1) / c + 1) * c := by
          rw [Nat.add_mul, Nat.one_mul]
          omega
        rw [hSe, Nat.mul_mod_left]
      rw [hS0, if_pos rfl]
      omega
    · have hS1 : S % c = (S - 1) % c + 1 := by
        have hSe : S = ((S - 1) % c + 1) + ((S - 1) / c) * c := by omega
        conv_lhs => rw [hSe, Nat.add_mul_mod_self_right]
        apply Nat.mod_eq_of_lt
        omega
      rw [hS1, if_neg (by omega)]
      omega

/-- C6: for every variant dispatch and every image of size `S > 0`, the
write loop produces `⌈S / c⌉` chunks at offsets `0, c, 2c, …`, each of
size `c` except the final one, which is `S mod c` when `c` does not
divide `S` (and `c` otherwise); `c` is 64 KiB on the firmware-stage T41
path, 1 MiB on the A1 path and 128 KiB on the default T31-family path. -/
theorem write_firmware_chunk_partition (stage : device_stage_t)
    (variant : processor_variant_t) (is_a1_fw : Bool) (S : Nat)
    (hS : 0 < S) :
    (write_firmware_chunks stage variant is_a1_fw S).length
      = (S + write_chunk_size stage variant is_a1_fw - 1)
          / write_chunk_size stage variant is_a1_fw ∧
    (∀ i, ∀ h : i < (write_firmware_chunks stage variant is_a1_fw S).length,
      ((write_firmware_chunks stage variant is_a1_fw S).get ⟨i, h⟩).1
        = i * write_chunk_size stage variant is_a1_fw) ∧
    (∀ i, ∀ h : i < (write_firmware_chunks stage variant is_a1_fw S).length,
      i + 1 < (write_firmware_chunks stage variant is_a1_fw S).length →
      ((write_firmware_chunks stage variant is_a1_fw S).get ⟨i, h⟩).2
        = write_chunk_size stage variant is_a1_fw) ∧
    (∀ i, ∀ h : i < (write_firmware_chunks stage variant is_a1_fw S).length,
      i + 1 = (write_firmware_chunks stage variant is_a1_fw S).length →
      ((write_firmware_chunks stage variant is_a1_fw S).get ⟨i, h⟩).2
        = if S % write_chunk_size stage variant is_a1_fw = 0 then
            write_chunk_size stage variant is_a1_fw
          else S % write_chunk_size stage variant is_a1_fw) ∧
    write_chunk_size .firmware .T41 is_a1_fw = 65536 ∧
    (variant ≠ .T41 → write_chunk_size .firmware variant true = 1048576) ∧
    (variant ≠ .T41 → write_chunk_size .firmware variant false = 131072) := by
  have hc : 0 < write_chunk_size stage variant is_a1_fw :=
    write_chunk_size_pos stage variant is_a1_fw
  have hfacts := write_chunks_loop_partition
    (write_chunk_size stage variant is_a1_fw) S hc hS
  refine ⟨hfacts.1, hfacts.2.1, hfacts.2.2.1, hfacts.2.2.2, ?_, ?_, ?_⟩
  · simp [write_chunk_size, CHUNK_SIZE_64KB]
  · intro hne
    simp [write_chunk_size, CHUNK_SIZE_1MB, hne]
  · intro hne
    simp [write_chunk_size, CHUNK_SIZE_128KB, hne]

/-- Witness for C6: a 300000-byte T31 firmware-stage image splits into
⌈300000/131072⌉ = 3 chunks, the second at offset 131072. -/
theorem write_firmware_chunk_partition_witness :
    (0 : Nat) < 300000 ∧
    (write_firmware_chunks .firmware .T31 false 300000).length
      = (300000 + write_chunk_size .firmware .T31 false - 1)
          / write_chunk_size .firmware .T31 false ∧
    ((write_firmware_chunks .firmware .T31 false 300000).get
        ⟨1, by decide⟩).1 = 1 * write_chunk_size .firmware .T31 false :=
  ⟨by decide,
   (write_firmware_chunk_partition .firmware .T31 false 300000 (by decide)).1,
   (write_firmware_chunk_partition .firmware .T31 false 300000
      (by decide)).2.1 1 (by decide)⟩

/-! ## Erase-ready polling (src/firmware/writer.c
       `firmware_wait_for_erase_ready`, lines 43-119) -/

/-- `poll_interval_ms` (writer.c line 46). -/
def poll_interval_ms : Nat := 500

/-- Outcome of the erase-ready wait: the elapsed time at return and
whether the 60 s cap was hit (the warning branch). The function is
`void` in the source: there is no error outcome and the write proceeds
regardless. -/
structure erase_wait_result where
  elapsed_ms : Nat
  timed_out : Bool
  deriving DecidableEq, Repr

/-- Tracking state of the polling loop (writer.c lines 69-71):
`last_status`, `stable_count`, `have_status`. -/
structure erase_poll_state where
  last_status : Nat
  stable_count : Nat
  have_status : Bool
  deriving DecidableEq, Repr

/-- The polling loop of `firmware_wait_for_erase_ready` (writer.c lines
73-113). `status_oracle n` is the outcome of the n-th `FW_READ_STATUS2`
poll (`none` models a transport error, treated as still-busy). `fuel`
bounds the iteration count; the entry point supplies enough for the
cap. -/
def erase_wait_loop (status_oracle : Nat → Option Nat)
    (min_wait max_wait : Nat) :
    Nat → Nat → Nat → erase_poll_state → erase_wait_result
  | 0, _, elapsed, _ => ⟨elapsed, decide (max_wait ≤ elapsed)⟩
  | fuel + 1, n, elapsed, st =>
    if elapsed < max_wait then
      match status_oracle n with
      | some status =>
        if min_wait ≤ elapsed then
          if st.have_status = false then
            erase_wait_loop status_oracle min_wait max_wait fuel (n + 1)
              (elapsed + poll_interval_ms) ⟨status, 1, true⟩
          else if status = st.last_status then
            if 3 ≤ st.stable_count + 1 then ⟨elapsed, false⟩
            else
              erase_wait_loop status_oracle min_wait max_wait fuel (n + 1)
                (elapsed + poll_interval_ms)
                ⟨st.last_status, st.stable_count + 1, true⟩
          else ⟨elapsed, false⟩
        else
          erase_wait_loop status_oracle min_wait max_wait fuel (n + 1)
            (elapsed + poll_interval_ms) st
      | none =>
        erase_wait_loop status_oracle min_wait max_wait fuel (n + 1)
          (elapsed + poll_interval_ms) st
    else ⟨elapsed, decide (max_wait ≤ elapsed)⟩

/-- `firmware_wait_for_erase_ready` (writer.c lines 43-119): the
non-T31-family / non-firmware-stage fallback is a plain `min_wait_ms`
sleep; otherwise the status-polling loop runs with `max_wait_ms`
clamped to at least `min_wait_ms`. -/
def firmware_wait_for_erase_ready (stage : device_stage_t)
    (variant : processor_variant_t) (status_oracle : Nat → Option Nat)
    (min_wait_ms max_wait_ms : Nat) : erase_wait_result :=
  if ¬(stage = .firmware ∧
      (variant = .T31 ∨ variant = .T31X ∨ variant = .T31ZX ∨
        variant = .T41)) then
    ⟨min_wait_ms, false⟩
  else
    let max_w := max max_wait_ms min_wait_ms
    erase_wait_loop status_oracle min_wait_ms max_w
      (max_w / poll_interval_ms + 1) 0 0 ⟨0, 0, false⟩

theorem erase_wait_loop_elapsed_le (status_oracle : Nat → Option Nat)
    (min_wait : Nat) :
    ∀ (fuel n elapsed : Nat) (st : erase_poll_state),
      500 ∣ elapsed → elapsed ≤ 60000 →
      (erase_wait_loop status_oracle min_wait 60000 fuel n elapsed st).elapsed_ms
        ≤ 60000 := by
  intro fuel
  induction fuel with
  | zero => intro n elapsed st hdvd hle; exact hle
  | succ fuel ih =>
    intro n elapsed st hdvd hle
    rw [erase_wait_loop]
    by_cases hlt : elapsed < 60000
    · rw [if_pos hlt]
      have hstep : elapsed + poll_interval_ms ≤ 60000 := by
        unfold poll_interval_ms
        omega
      have hdvd2 : 500 ∣ elapsed + poll_interval_ms := by
        unfold poll_interval_ms
        omega
      cases status_oracle n with
      | none => exact ih (n + 1) _ st hdvd2 hstep
      | some status =>
        simp only []
        by_cases hmin : min_wait ≤ elapsed
        · rw [if_pos hmin]
          by_cases hhs : st.have_status = false
          · rw [if_pos hhs]
            exact ih (n + 1) _ _ hdvd2 hstep
          · rw [if_neg hhs]
            by_cases heq : status = st.last_status
            · rw [if_pos heq]
              by_cases hstable : 3 ≤ st.stable_count + 1
              · rw [if_pos hstable]
                exact hle
              · rw [if_neg hstable]
                exact ih (n + 1) _ _ hdvd2 hstep
            · rw [if_neg heq]
              exact hle
        · rw [if_neg hmin]
          exact ih (n + 1) _ st hdvd2 hstep
    · rw [if_neg hlt]
      exact hle

/-- C7: the erase-ready poller always terminates without failing the
write: its result has no error outcome; with the source's parameters
(5 s minimum wait, 60 s cap, 500 ms polls) the elapsed time at return
never exceeds the 60 s cap; a status stable from the minimum wait on
returns at 6000 ms = min_wait + 2·500 ≤ min_wait + 3·500 without the
warning; a status that changes at the poll right after the minimum wait
returns at 5500 ms without the warning; and a transport that always errors is
treated as still-busy, the poller returning exactly at the 60 s cap
with only the warning while the write proceeds. -/
theorem firmware_wait_for_erase_ready_spec :
    (∀ (stage : device_stage_t) (variant : processor_variant_t)
        (status_oracle : Nat → Option Nat),
      (firmware_wait_for_erase_ready stage variant status_oracle
          5000 60000).elapsed_ms ≤ 60000) ∧
    (∀ v : Nat,
      firmware_wait_for_erase_ready .firmware .T31 (fun _ => some v)
          5000 60000 = ⟨6000, false⟩) ∧
    (∀ v w : Nat, w ≠ v →
      firmware_wait_for_erase_ready .firmware .T31
          (fun n => if n = 11 then some w else some v)
          5000 60000 = ⟨5500, false⟩) ∧
    (firmware_wait_for_erase_ready .firmware .T31 (fun _ => none)
        5000 60000 = ⟨60000, true⟩) := by
  refine ⟨?_, ?_, ?_, ?_⟩
  · intro stage variant status_oracle
    unfold firmware_wait_for_erase_ready
    by_cases hgate : ¬(stage = .firmware ∧
        (variant = .T31 ∨ variant = .T31X ∨ variant = .T31ZX ∨
          variant = .T41))
    · rw [if_pos hgate]
      decide
    · rw [if_neg hgate]
      have hmax : max 60000 5000 = 60000 := by omega
      simp only [hmax]
      exact erase_wait_loop_elapsed_le status_oracle 5000 _ 0 0 _
        (by omega) (by omega)
  · intro v
    unfold firmware_wait_for_erase_ready
    rw [if_neg (by simp)]
    simp [erase_wait_loop, poll_interval_ms]
  · intro v w hne
    unfold firmware_wait_for_erase_ready
    rw [if_neg (by simp)]
    simp [erase_wait_loop, poll_interval_ms, hne]
  · unfold firmware_wait_for_erase_ready
    rw [if_neg (by simp)]
    rfl

/-- Witness for C7: instantiating the status-change clause at an oracle
that reports 0 ten times and then 1. -/
theorem firmware_wait_for_erase_ready_spec_witness :
    firmware_wait_for_erase_ready .firmware .T31
        (fun n => if n = 11 then some 1 else some 0) 5000 60000
      = ⟨5500, false⟩ :=
  firmware_wait_for_erase_ready_spec.2.2.1 0 1 (by decide)

/-! ## Bootstrap entry point (src/bootstrap.c
       `bootstrap_ensure_bootstrapped`, lines 366-378) -/

/-- A USB operation observable on the wire. -/
inductive usb_op where
  | control (request : Nat)
  | bulk_out (bytes : Nat)
  | bulk_in (bytes : Nat)
  deriving DecidableEq, Repr

/-- The state of `usb_device_t` that `bootstrap_ensure_bootstrapped`
can observe or change. -/
structure usb_device_state where
  stage : device_stage_t
  variant : processor_variant_t
  closed : Bool
  deriving DecidableEq, Repr

/-- `bootstrap_ensure_bootstrapped` (bootstrap.c lines 366-378):
parameter check, then an immediate success return when the device is
already in firmware stage; otherwise it delegates to
`bootstrap_device`, abstracted as the parameter `bootstrapDevice`
(its trace and state change are irrelevant to the firmware-stage
path). -/
def bootstrap_ensure_bootstrapped
    (bootstrapDevice :
      usb_device_state → thingino_error_t × List usb_op × usb_device_state)
    (device : usb_device_state) (config_present : Bool) :
    thingino_error_t × List usb_op × usb_device_state :=
  if config_present = false then (.invalid_parameter, [], device)
  else if device.stage = .firmware then (.success, [], device)
  else bootstrapDevice device

/-- C9: for every device already in Firmware stage,
`bootstrap_ensure_bootstrapped` returns success immediately, performs
no USB operation and leaves the device state unchanged, whatever the
underlying bootstrap routine would do. -/
theorem bootstrap_ensure_bootstrapped_idempotent
    (bootstrapDevice :
      usb_device_state → thingino_error_t × List usb_op × usb_device_state)
    (device : usb_device_state) (h : device.stage = .firmware) :
    bootstrap_ensure_bootstrapped bootstrapDevice device true
      = (.success, [], device) := by
  unfold bootstrap_ensure_bootstrapped
  rw [if_neg (by decide), if_pos h]

/-- Witness for C9 at a concrete firmware-stage T31 device. -/
theorem bootstrap_ensure_bootstrapped_idempotent_witness :
    bootstrap_ensure_bootstrapped (fun d => (.transfer_failed, [.control 0], d))
        ⟨.firmware, .T31, false⟩ true
      = (.success, [], ⟨.firmware, .T31, false⟩) :=
  bootstrap_ensure_bootstrapped_idempotent
    (fun d => (.transfer_failed, [.control 0], d))
    ⟨.firmware, .T31, false⟩ rfl

end ThinginoCloner
